import Mathlib

/-!
Shallow embedding of `dist/chart-column.js` (a D3 column-chart widget) and
proofs about its layout, color-resolution, rendering and update logic.

JavaScript numbers are modelled as `ℚ` (the code performs only field
arithmetic on finite values in the cases the theorems speak about);
JavaScript's `undefined`/missing optional values are modelled as `Option`;
JavaScript truthiness of the values the source actually tests is modelled by
explicit `jsTruthy…` helpers.
-/

namespace ChartColumn

/-! ## Defaults (the module-level `defaults` object) -/

def colors_hh : String := "#f15854"
def colors_h : String := "#faa43a"
def colors_l : String := "#faa43a"
def colors_ll : String := "#f15854"
def colors_default : String := "#5da5da"
def colors_threshold : String := "#e4e4ea"
def colors_background : String := "#e4e4ea"
def colors_reference : String := "#242326"
def colors_labels : String := "#242326"
def colors_borders : String := "#e4e4ea"

/-! ## Data model -/

/-- A thresholds object: any of the keys `hh`, `h`, `l`, `ll` may be absent
(JavaScript `undefined`). -/
structure Thresholds where
  ll : Option ℚ := none
  l : Option ℚ := none
  h : Option ℚ := none
  hh : Option ℚ := none
deriving DecidableEq

/-- One column of the chart (`data` array element). `error` holds the
optional `{l, h}` pair as `(l, h)`. -/
structure DataPoint where
  name : String := ""
  value : ℚ
  color : Option String := none
  reference : Option ℚ := none
  error : Option (ℚ × ℚ) := none
deriving DecidableEq

/-! ## JavaScript coercion helpers -/

/-- `v <= t.k` where `t.k` may be `undefined`: any `<=` comparison with
`undefined` is `false` in JavaScript (NaN comparison). -/
def jsLe (v : ℚ) : Option ℚ → Bool
  | none => false
  | some x => decide (v ≤ x)

/-- `v >= t.k` with `undefined` handled as in `jsLe`. -/
def jsGe (v : ℚ) : Option ℚ → Bool
  | none => false
  | some x => decide (x ≤ v)

/-- Truthiness of an optional number: `undefined` and `0` are falsy. -/
def jsTruthyNum : Option ℚ → Bool
  | none => false
  | some q => decide (q ≠ 0)

/-- Truthiness of an optional string: `undefined` and `""` are falsy. -/
def jsTruthyStr : Option String → Bool
  | none => false
  | some s => decide (s ≠ "")

/-- JavaScript arithmetic coerces `null`/missing to `0` (`Number(null) = 0`);
used where the source does arithmetic or `>=` comparisons on a possibly-null
`config.baseline`. -/
def jsNum (x : Option ℚ) : ℚ := x.getD 0

/-! ## Utility methods (source lines 133-219) -/

/-- `getColor(v, t)` (source lines 133-151): starts from the default color;
if `v <= t.l` takes the `l` color, refined to `ll` when additionally
`v <= t.ll`; then — evaluated after the low branch, overwriting it — if
`v >= t.h` takes the `h` color, refined to `hh` when additionally
`v >= t.hh`. -/
def getColor (v : ℚ) (t : Option Thresholds) : String :=
  match t with
  | none => colors_default
  | some t =>
    let color := colors_default
    let color := if jsLe v t.l then (if jsLe v t.ll then colors_ll else colors_l) else color
    if jsGe v t.h then (if jsGe v t.hh then colors_hh else colors_h) else color

/-- `getFontSize(colWidth)` (source lines 153-157). -/
def getFontSize (colWidth : ℚ) : ℚ :=
  let size := colWidth * 0.6
  if size < 9 then 9 else size

/-- `getTickCount(height)` (source lines 159-162). -/
def getTickCount (height : ℚ) : ℚ := height / 20

/-- `getColWidth(width, numCols, max, min, showYAxis)` (source lines
177-186). `max`/`min` enter only through `toString().length`; they are
modelled as integers, whose JavaScript `toString` agrees with Lean's
(`"100"`, `"-5"`). `numCols` is `data.length`, a natural number. -/
def getColWidth (width : ℚ) (numCols : ℕ) (maxV minV : ℤ) (showYAxis : Bool) : ℚ :=
  let numChars : ℕ := Nat.max (toString maxV).length (toString minV).length
  let base := width / (2 * (numCols : ℚ) - 1)
  let colWidth := if base < 20 then base else 20
  if showYAxis then
    let less := (width - 10 * (numChars : ℚ)) / (2 * (numCols : ℚ) - 1)
    if less < 20 then less else 20
  else colWidth

/-- The "high-side result" of `getColor`: what the high branch alone
assigns — the `hh` color when `v >= t.hh`, else the `h` color. -/
def highSideResult (v : ℚ) (t : Thresholds) : String :=
  if jsGe v t.hh then colors_hh else colors_h

/-- `getMargins(colWidth, max, min, showXAxis, showYAxis)` (source lines
164-175), returned as (left, right, bottom, top). -/
def getMargins (colWidth : ℚ) (maxV minV : ℤ) (showXAxis showYAxis : Bool) :
    ℚ × ℚ × ℚ × ℚ :=
  let numChars : ℕ := Nat.max (toString maxV).length (toString minV).length
  let left := if showYAxis then getFontSize colWidth * (numChars : ℚ) else 0
  let bottom := if showXAxis then 1.3 * getFontSize colWidth else 1
  let top := 0.5 * getFontSize colWidth
  (left, 5, bottom, top)

/-- A d3 v3 linear scale with domain `[d0, d1]` and range `[r0, r1]`:
`scale(x) = r0 + (x - d0) * (r1 - r0) / (d1 - d0)`. (For the degenerate
domain `d0 = d1`, d3 uses interpolation factor 0, i.e. `scale(x) = r0`;
`ℚ` division by zero gives the same.) -/
def d3LinearScale (d0 d1 r0 r1 x : ℚ) : ℚ :=
  r0 + (x - d0) * (r1 - r0) / (d1 - d0)

/-! ## Resolved configuration (the `config` object built by `link`) -/

/-- The `config` object as the renderers see it after `link` has populated
it (source lines 507-542). `yScale`/`xScale` are carried as functions, as
in the source. `max`/`min` are not carried: the renderers use them only
through the scales. -/
structure Config where
  width : ℚ
  height : ℚ
  baseline : Option ℚ := none
  thresholds : Option Thresholds := none
  data : List DataPoint := []
  colWidth : ℚ
  stroke : ℚ
  marginTop : ℚ
  marginBottom : ℚ
  marginLeft : ℚ
  marginRight : ℚ
  showColoredThresholds : Bool := false
  showTooltip : Bool := false
  yScale : ℚ → ℚ
  xScale : ℚ → ℚ

/-- `config.height - config.marginBottom + config.marginTop -
config.yScale(config.baseline)` (source lines 304, 350, 201). -/
def baselineY (c : Config) : ℚ :=
  c.height - c.marginBottom + c.marginTop - c.yScale (jsNum c.baseline)

/-- The fill of a bar: `d.color ? d.color : getColor(d.value,
config.thresholds)` (source lines 317-319, 353-355, 381-383, 395-397). -/
def barFill (c : Config) (d : DataPoint) : String :=
  if jsTruthyStr d.color then d.color.getD "" else getColor d.value c.thresholds

/-! ## Rendered element geometry -/

/-- The geometric/style attributes of one bar rectangle. -/
structure Bar where
  x : ℚ
  y : ℚ
  h : ℚ
  fill : String
deriving DecidableEq

/-- A line element's attributes (`x1`, `x2`, `y1`, `y2`, stroke width,
stroke color). -/
structure LineEl where
  x1 : ℚ
  x2 : ℚ
  y1 : ℚ
  y2 : ℚ
  strokeWidth : ℚ
  stroke : String
deriving DecidableEq

/-- A background rectangle's attributes. -/
structure BgRect where
  x : ℚ
  y : ℚ
  w : ℚ
  h : ℚ
  fill : String
deriving DecidableEq

/-- An x-axis label's attributes. -/
structure XLabel where
  text : String
  x : ℚ
  y : ℚ
deriving DecidableEq

/-- The values computed by the `errorBars` helper (source lines 191-219):
zeroed when the point has no `error`, otherwise the cap extents, center x
(absent — `undefined` — when there is no error), vertical extents and
stroke width 1. -/
structure ErrAttrs where
  x1 : ℚ
  x2 : ℚ
  y1 : ℚ
  y2 : ℚ
  strokeWidth : ℚ
  xCenter : Option ℚ
deriving DecidableEq

/-- `errorBars(d, i, config)` (source lines 191-219). -/
def errorBarsAttrs (d : DataPoint) (i : ℕ) (c : Config) : ErrAttrs :=
  match d.error with
  | none => ⟨0, 0, 0, 0, 0, none⟩
  | some e =>
    let el := e.1
    let eh := e.2
    let x1 := if 10 < c.colWidth then c.xScale i + c.colWidth * 0.25 else c.xScale i
    let xC := c.xScale i + c.colWidth * 0.5
    let x2 := if 10 < c.colWidth then c.xScale i + c.colWidth * 0.75
              else c.xScale i + c.colWidth
    let y1 :=
      if jsTruthyNum c.baseline then
        let b := jsNum c.baseline
        if b ≤ eh then baselineY c - |c.yScale b - c.yScale eh|
        else baselineY c + |c.yScale b - c.yScale eh|
      else c.height - c.marginBottom + c.marginTop - c.yScale eh
    let y2 :=
      if jsTruthyNum c.baseline then
        let b := jsNum c.baseline
        if b ≤ el then baselineY c - |c.yScale b - c.yScale el|
        else baselineY c + |c.yScale b - c.yScale el|
      else c.height - c.marginBottom + c.marginTop - c.yScale el
    ⟨x1, x2, y1, y2, 1, some xC⟩

/-- Final (post-transition) attributes of bar `i` in baseline mode
(`renderDataFromBaseline`, source lines 303-337): if the value is at or
above the baseline the rectangle goes up from the baseline row by
`|yScale(baseline) - yScale(value)|`, else down from the baseline row;
its height is that difference, except that a falsy (zero) value gives
height 0. JavaScript's `d.value >= config.baseline` coerces a null
baseline to 0 (`jsNum`). -/
def baseBarR (c : Config) (i : ℕ) (d : DataPoint) : Bar :=
  let b := jsNum c.baseline
  { x := c.xScale i
    y := if b ≤ d.value then baselineY c - |c.yScale b - c.yScale d.value|
         else baselineY c
    h := if d.value ≠ 0 then |c.yScale b - c.yScale d.value| else 0
    fill := barFill c d }

/-- Attributes written by `updateDataFromBaseline` (source lines 349-367)
to the existing bar whose `x` attribute (`x0`) it does not touch. -/
def baseBarU (c : Config) (d : DataPoint) (x0 : ℚ) : Bar :=
  let b := jsNum c.baseline
  { x := x0
    y := if b ≤ d.value then baselineY c - |c.yScale b - c.yScale d.value|
         else baselineY c
    h := if d.value ≠ 0 then |c.yScale b - c.yScale d.value| else 0
    fill := barFill c d }

/-- Final (post-transition) attributes of bar `i` in zero-origin mode
(`renderDataFromAxis`, source lines 369-391). -/
def axisBarR (c : Config) (i : ℕ) (d : DataPoint) : Bar :=
  { x := c.xScale i
    y := c.height - c.marginBottom + c.marginTop - c.yScale d.value
    h := c.yScale d.value - c.marginTop
    fill := barFill c d }

/-- Attributes written by `updateDataFromAxis` (source lines 392-400) to
the existing bar whose `x` attribute (`x0`) it does not touch. -/
def axisBarU (c : Config) (d : DataPoint) (x0 : ℚ) : Bar :=
  { x := x0
    y := c.height - c.marginBottom + c.marginTop - c.yScale d.value
    h := c.yScale d.value - c.marginTop
    fill := barFill c d }

/-- Reference marker for point `i` (`renderReference`, source lines
470-483): a horizontal tick at `d.reference || 0` with 1px overhang and
stroke width 0 when `d.reference` is falsy. -/
def refMarkR (c : Config) (i : ℕ) (d : DataPoint) : LineEl :=
  let y := c.height - c.marginBottom + c.marginTop - c.yScale (jsNum d.reference)
  { x1 := c.xScale i - 1
    x2 := c.xScale i + c.colWidth + 1
    y1 := y
    y2 := y
    strokeWidth := if jsTruthyNum d.reference then c.stroke else 0
    stroke := colors_reference }

/-- `updateReference` (source lines 484-489) rewrites only `y1`/`y2` of an
existing reference marker `r`. -/
def refMarkU (c : Config) (d : DataPoint) (r : LineEl) : LineEl :=
  let y := c.height - c.marginBottom + c.marginTop - c.yScale (jsNum d.reference)
  { r with y1 := y, y2 := y }

/-! ## Layer renderers

Each layer of SVG elements the renderers produce, as a list of attribute
records. In `bars`/`references`, `none` marks an element whose geometry
the code computed from a missing (`undefined`) datum — its attributes are
NaN in JavaScript, so no rational value represents it. The initial render
never produces `none`. -/

/-- `renderBackgrounds` (source lines 245-259). -/
def renderBackgrounds (c : Config) : List BgRect :=
  (List.range c.data.length).map fun i =>
    ⟨c.xScale i, c.marginTop, c.colWidth,
     c.height - c.marginTop - c.marginBottom, colors_background⟩

/-- One threshold line (`renderThresholdMarkers` body, source lines
262-272): `key` selects the per-key color when `showColoredThresholds`. -/
def thresholdLine (c : Config) (v : ℚ) (keyColor : String) : LineEl :=
  let y := c.height - c.marginBottom + c.marginTop - c.yScale v
  ⟨c.marginLeft, c.width - c.marginRight, y, y, 1,
   if c.showColoredThresholds then keyColor else colors_threshold⟩

/-- `renderThresholdMarkers` (source lines 261-273): one line per key
present on the thresholds object. The source's `for..in` follows the JSON
insertion order, which the embedding fixes as ll, l, h, hh (no claim
depends on the order). -/
def renderThresholdMarkers (c : Config) : List LineEl :=
  match c.thresholds with
  | none => []
  | some t =>
    (t.ll.map fun v => thresholdLine c v colors_ll).toList ++
    (t.l.map fun v => thresholdLine c v colors_l).toList ++
    (t.h.map fun v => thresholdLine c v colors_h).toList ++
    (t.hh.map fun v => thresholdLine c v colors_hh).toList

/-- `renderXAxis` (source lines 275-287): one text label per point. -/
def renderXAxis (c : Config) : List XLabel :=
  (List.range c.data.length).map fun (i : ℕ) =>
    ⟨((c.data[i]?).map DataPoint.name).getD "",
     c.xScale i + c.colWidth / 2,
     c.height - c.marginBottom + 1.3 * getFontSize c.colWidth⟩

/-- The baseline marker line appended by `renderDataFromBaseline` (source
lines 340-347). -/
def baselineMarkerLine (c : Config) : LineEl :=
  ⟨c.marginLeft, c.width - c.marginRight, baselineY c, baselineY c,
   c.stroke, colors_reference⟩

/-- The two plot borders (`renderBorders`, source lines 448-468). -/
def renderBorders (c : Config) : List LineEl :=
  [⟨c.marginLeft, c.width - c.marginRight, c.marginTop, c.marginTop, 1, colors_borders⟩,
   ⟨c.marginLeft, c.width - c.marginRight, c.height - c.marginBottom,
    c.height - c.marginBottom, 1, colors_borders⟩]

/-- Bars produced by `renderDataFromBaseline` (final attribute values). -/
def renderBarsBase (c : Config) : List (Option Bar) :=
  (List.range c.data.length).map fun i => (c.data[i]?).map (baseBarR c i)

/-- Bars produced by `renderDataFromAxis` (final attribute values). -/
def renderBarsAxis (c : Config) : List (Option Bar) :=
  (List.range c.data.length).map fun i => (c.data[i]?).map (axisBarR c i)

/-- Error-bar attributes per point (`renderErrorBars`, source lines
402-439, draws its three line segments per point directly from these). -/
def renderErrorSegs (c : Config) : List ErrAttrs :=
  (List.range c.data.length).map fun i =>
    match c.data[i]? with
    | some d => errorBarsAttrs d i c
    | none => ⟨0, 0, 0, 0, 0, none⟩

/-- Reference markers produced by `renderReference`. -/
def renderReferences (c : Config) : List (Option LineEl) :=
  (List.range c.data.length).map fun i => (c.data[i]?).map (refMarkR c i)

/-- The set of SVG elements a chart instance owns, by layer. -/
structure Scene where
  backgrounds : List BgRect
  thresholdLines : List LineEl
  xLabels : List XLabel
  yAxisDrawn : Bool
  bars : List (Option Bar)
  baselineMarker : Option LineEl
  errorSegs : List ErrAttrs
  borders : List LineEl
  references : List (Option LineEl)

/-- `params.render` (source lines 548-559): paints every layer. The x/y
axis layers and the bar mode are gated by the flags `link` captured;
threshold lines are gated by `params.thresholds` being truthy, which the
embedding takes as `config.thresholds` being present. The y axis is
delegated to d3's axis generator, modelled only as a drawn/not-drawn
flag. -/
def renderScene (c : Config) (showXAxis showYAxis showBaseline : Bool) : Scene :=
  { backgrounds := renderBackgrounds c
    thresholdLines := if c.thresholds.isSome then renderThresholdMarkers c else []
    xLabels := if showXAxis then renderXAxis c else []
    yAxisDrawn := showYAxis
    bars := if showBaseline then renderBarsBase c else renderBarsAxis c
    baselineMarker := if showBaseline then some (baselineMarkerLine c) else none
    errorSegs := renderErrorSegs c
    borders := renderBorders c
    references := renderReferences c }

/-- `updateDataFromBaseline` applied to the existing bar elements `old`:
element `i` gets the update formulas from `config.data[i]` (the new data),
its `x` untouched; an index beyond the new data reads `undefined` and
poisons the element's attributes with NaN (`none`). -/
def updBarsBase (c : Config) (nd : List DataPoint) (old : List (Option Bar)) :
    List (Option Bar) :=
  (List.range old.length).map fun i =>
    match old[i]?, nd[i]? with
    | some (some b), some d => some (baseBarU c d b.x)
    | _, _ => none

/-- `updateDataFromAxis` applied to the existing bar elements `old`. -/
def updBarsAxis (c : Config) (nd : List DataPoint) (old : List (Option Bar)) :
    List (Option Bar) :=
  (List.range old.length).map fun i =>
    match old[i]?, nd[i]? with
    | some (some b), some d => some (axisBarU c d b.x)
    | _, _ => none

/-- `updateErrorBars` (source lines 440-446): its body is a bare selection
(`svg.selectAll('.error-center').selectAll('col-0')`) followed by a `TODO`
comment — it mutates nothing, so the error-bar elements are returned
unchanged. -/
def updateErrorBars (segs : List ErrAttrs) : List ErrAttrs := segs

/-- `updateReference` applied to the existing reference elements. -/
def updReferences (c : Config) (nd : List DataPoint) (old : List (Option LineEl)) :
    List (Option LineEl) :=
  (List.range old.length).map fun i =>
    match old[i]?, nd[i]? with
    | some (some r), some d => some (refMarkU c d r)
    | _, _ => none

/-- `params.update(newData)` (source lines 563-568): stores the new data,
then re-invokes only `updateDataFromBaseline`/`updateDataFromAxis`
(according to the `showBaseline` captured at link time),
`updateErrorBars` (a no-op) and `updateReference`. Every other layer of
the scene is untouched. -/
def chartUpdate (c : Config) (showBaseline : Bool) (newData : List DataPoint)
    (s : Scene) : Scene :=
  { s with
    bars := if showBaseline then updBarsBase c newData s.bars
            else updBarsAxis c newData s.bars
    errorSegs := updateErrorBars s.errorSegs
    references := updReferences c newData s.references }

/-! ## The `link` function's configuration resolution (source lines 499-577) -/

/-- Digit list to a natural number. -/
def digitsToNat (l : List Char) : ℕ :=
  l.foldl (fun a c => 10 * a + (c.toNat - 48)) 0

/-- JavaScript's `parseFloat`, modelled for strings of the shape
`[-]digits[.digits…]` (trailing garbage ignored, as `parseFloat` does);
`none` stands for NaN, returned for strings that do not start with a
number. This covers every numeric literal the theorems evaluate. -/
def jsParseFloat (s : String) : Option ℚ :=
  let cs := s.toList
  let neg := cs.head? = some '-'
  let cs' := if neg then cs.tail else cs
  let intPart := cs'.takeWhile Char.isDigit
  let rest := cs'.dropWhile Char.isDigit
  if intPart = [] then none
  else
    let ip : ℚ := (digitsToNat intPart : ℚ)
    let q : ℚ :=
      match rest with
      | '.' :: frac =>
        let fd := frac.takeWhile Char.isDigit
        ip + (digitsToNat fd : ℚ) / (10 ^ fd.length)
      | _ => ip
    some (if neg then -q else q)

/-- `link`'s baseline resolution (source lines 501 and 512):
`showBaseline = params.baseline ? true : false` (string truthiness) and
`config.baseline = parseFloat(params.baseline) || null` — so a parse
result of `0` (falsy) collapses to `null`, as does NaN. -/
def resolveBaseline (attr : Option String) : Bool × Option ℚ :=
  let showBaseline := jsTruthyStr attr
  let b : Option ℚ :=
    match attr with
    | none => none
    | some s =>
      match jsParseFloat s with
      | none => none
      | some q => if q = 0 then none else some q
  (showBaseline, b)

/-- A parsed JSON value, to the granularity `link` inspects: `JSON.parse`
may return an array (the expected case), or any other JSON value, whose
only relevant property is its truthiness (`null`, `false`, `0`, `""` are
falsy; arrays and objects are always truthy). -/
inductive JsonValue where
  | arr (d : List DataPoint)
  | nullV
  | boolV (b : Bool)
  | numV (q : ℚ)
  | strV (s : String)
deriving DecidableEq

/-- JavaScript truthiness of a parsed JSON value. -/
def JsonValue.truthy : JsonValue → Bool
  | .arr _ => true
  | .nullV => false
  | .boolV b => b
  | .numV q => decide (q ≠ 0)
  | .strV s => decide (s ≠ "")

/-- The observable outcome of `link`'s data initialization when it does
not throw: the resolved `config.data`, whether `params.render()` was
invoked, and whether the `'has no data'` diagnostic was logged. -/
structure LinkInit where
  dataVal : JsonValue
  rendered : Bool
  diagnostic : Bool
deriving DecidableEq

/-- `link`'s data resolution and initialization (source lines 519 and
570-577): `config.data = params.data ? JSON.parse(params.data) : []`,
then `if (config.data) { params.render(); } else { console.log(… 'has no
data.'); }`. `JSON.parse` is passed in as an oracle `parse`; a payload on
which it throws (`Except.error`) makes the whole of `link` throw — there
is no try/catch in the source. An empty array is truthy in JavaScript, so
the absent-data path still calls `render`. -/
def linkInitData (dataAttr : Option String)
    (parse : String → Except Unit JsonValue) : Except Unit LinkInit :=
  if jsTruthyStr dataAttr then
    match parse (dataAttr.getD "") with
    | .error e => .error e
    | .ok v => .ok ⟨v, v.truthy, !v.truthy⟩
  else .ok ⟨.arr [], true, false⟩

/-- `link`'s column-width computation (source line 520):
`getColWidth(config.width, config.data.length, config.max, config.min,
config.showYAxis)`. `config.showYAxis` is a field that is never assigned
anywhere in the source (the flag lives in the local variable
`showYAxis`), so the call always receives `undefined`, which is falsy. -/
def linkColWidth (width : ℚ) (dataLen : ℕ) (maxV minV : ℤ) : ℚ :=
  getColWidth width dataLen maxV minV false

/-! ## Helper lemmas -/

lemma cap20_le (x : ℚ) : (if x < 20 then x else 20) ≤ 20 := by
  split_ifs with hx
  · exact le_of_lt hx
  · exact le_refl 20

lemma cap20_mono {x y : ℚ} (hxy : x ≤ y) :
    (if x < 20 then x else 20) ≤ (if y < 20 then y else 20) := by
  split_ifs <;> linarith

lemma axisBarU_of_render (c : Config) (i : ℕ) (d : DataPoint) :
    axisBarU c d (axisBarR c i d).x = axisBarR c i d := rfl

lemma baseBarU_of_render (c : Config) (i : ℕ) (d : DataPoint) :
    baseBarU c d (baseBarR c i d).x = baseBarR c i d := rfl

lemma refMarkU_of_render (c : Config) (i : ℕ) (d : DataPoint) :
    refMarkU c d (refMarkR c i d) = refMarkR c i d := rfl

lemma updBarsAxis_roundtrip (c : Config) :
    updBarsAxis c c.data (renderBarsAxis c) = renderBarsAxis c := by
  unfold updBarsAxis renderBarsAxis
  simp only [List.length_map, List.length_range]
  apply List.map_congr_left
  intro i hi
  rw [List.mem_range] at hi
  rw [List.getElem?_map, List.getElem?_range hi]
  simp only [Option.map_some']
  rw [List.getElem?_eq_getElem hi]
  simp only [Option.map_some']
  rfl

lemma updBarsBase_roundtrip (c : Config) :
    updBarsBase c c.data (renderBarsBase c) = renderBarsBase c := by
  unfold updBarsBase renderBarsBase
  simp only [List.length_map, List.length_range]
  apply List.map_congr_left
  intro i hi
  rw [List.mem_range] at hi
  rw [List.getElem?_map, List.getElem?_range hi]
  simp only [Option.map_some']
  rw [List.getElem?_eq_getElem hi]
  simp only [Option.map_some']
  rfl

lemma updReferences_roundtrip (c : Config) :
    updReferences c c.data (renderReferences c) = renderReferences c := by
  unfold updReferences renderReferences
  simp only [List.length_map, List.length_range]
  apply List.map_congr_left
  intro i hi
  rw [List.mem_range] at hi
  rw [List.getElem?_map, List.getElem?_range hi]
  simp only [Option.map_some']
  rw [List.getElem?_eq_getElem hi]
  simp only [Option.map_some']
  rfl

/-! ## Sample configurations for concrete instantiations -/

/-- A zero-origin chart configuration with the spec's sample geometry:
width 150, height 75, domain `[0, 10]`, margins top 6 / bottom 1, yScale
the linear map `[0,10] → [6, 74]`. -/
def cfgAxis : Config :=
  { width := 150, height := 75, colWidth := 20, stroke := 1,
    marginTop := 6, marginBottom := 1, marginLeft := 0, marginRight := 5,
    yScale := fun v => d3LinearScale 0 10 6 (75 - 1) v,
    xScale := fun x => x,
    data := [{ name := "Jan", value := 7 }] }

/-- The same geometry with a baseline of 5. -/
def cfgBase : Config :=
  { width := 150, height := 75, baseline := some 5, colWidth := 20, stroke := 1,
    marginTop := 6, marginBottom := 1, marginLeft := 0, marginRight := 5,
    yScale := fun v => d3LinearScale 0 10 6 74 v,
    xScale := fun x => x,
    data := [] }

/-- The same geometry with an empty data sequence. -/
def cfgEmpty : Config :=
  { width := 150, height := 75, colWidth := 20, stroke := 1,
    marginTop := 6, marginBottom := 1, marginLeft := 0, marginRight := 5,
    yScale := fun v => d3LinearScale 0 10 6 74 v,
    xScale := fun x => x,
    data := [] }

/-! ## Claim theorems -/

/-- C1 (counterexample): a non-parseable data payload ("oops", on which
`JSON.parse` throws) does not yield an empty data sequence with a logged
diagnostic — the exception propagates out of `link` (`Except.error`),
contrary to the claim that no exception is raised from the core logic. -/
theorem c1_counterexample :
    linkInitData (some "oops") (fun _ => Except.error ()) = Except.error () := by
  rfl

/-- C1 (amended): a malformed (non-parseable) data payload makes
`JSON.parse` throw and the exception propagates out of `link` (no data
sequence, no render, no diagnostic). An absent data attribute yields the
empty sequence and `render` still runs (an empty array is truthy), drawing
nothing in the data-dependent layers; the diagnostic is logged (and
`render` skipped) only when the payload parses to a falsy JSON value such
as `null`. -/
theorem c1_amended (s : String) (parse : String → Except Unit JsonValue)
    (c : Config) (sx sy sb : Bool) :
    (s ≠ "" → parse s = Except.error () →
      linkInitData (some s) parse = Except.error ())
    ∧ linkInitData none parse = Except.ok ⟨.arr [], true, false⟩
    ∧ (s ≠ "" → parse s = Except.ok .nullV →
      linkInitData (some s) parse = Except.ok ⟨.nullV, false, true⟩)
    ∧ (c.data = [] →
      (renderScene c sx sy sb).bars = []
      ∧ (renderScene c sx sy sb).backgrounds = []
      ∧ (renderScene c sx sy sb).references = []
      ∧ (renderScene c sx sy sb).errorSegs = []
      ∧ (renderScene c sx sy sb).xLabels = []) := by
  refine ⟨?_, rfl, ?_, ?_⟩
  · intro hs hp
    simp [linkInitData, jsTruthyStr, hs, hp]
  · intro hs hp
    simp [linkInitData, jsTruthyStr, hs, hp, JsonValue.truthy]
  · intro h
    cases sb <;> cases sx <;>
      simp [renderScene, h, renderBackgrounds, renderBarsBase, renderBarsAxis,
            renderReferences, renderErrorSegs, renderXAxis]

/-- C1 (witness for the amended claim at concrete inputs). -/
theorem c1_amended_witness :
    linkInitData (some "oop") (fun _ => Except.error ()) = Except.error ()
    ∧ linkInitData none (fun _ => Except.error ()) = Except.ok ⟨.arr [], true, false⟩
    ∧ linkInitData (some "null") (fun _ => Except.ok .nullV)
        = Except.ok ⟨.nullV, false, true⟩
    ∧ (renderScene cfgEmpty false false false).bars = [] :=
  ⟨(c1_amended "oop" (fun _ => Except.error ()) cfgEmpty false false false).1
      (by decide) rfl,
   (c1_amended "" (fun _ => Except.error ()) cfgEmpty false false false).2.1,
   (c1_amended "null" (fun _ => Except.ok .nullV) cfgEmpty false false false).2.2.1
      (by decide) rfl,
   ((c1_amended "" (fun _ => Except.error ()) cfgEmpty false false false).2.2.2
      rfl).1⟩

/-- C2: `render()` followed immediately by `update` with the unchanged
data sequence leaves the layers `update` touches — the bars, in the mode
fixed at render, and the reference markers — with pixel positions, heights
and fills identical to the initial render. -/
theorem c2_noop_update_roundtrip (c : Config) (sx sy sb : Bool) :
    (chartUpdate c sb c.data (renderScene c sx sy sb)).bars
      = (renderScene c sx sy sb).bars
    ∧ (chartUpdate c sb c.data (renderScene c sx sy sb)).references
      = (renderScene c sx sy sb).references := by
  constructor
  · cases sb <;>
      simp [chartUpdate, renderScene, updBarsAxis_roundtrip, updBarsBase_roundtrip]
  · simp [chartUpdate, renderScene, updReferences_roundtrip]

/-- C3 (counterexample): with overlapping/inverted thresholds the claim's
unconditional band-color statements fail. (i) `v = 5`, `ll = 10`,
`l = 20`, `h = 0`: `v ≤ veryLow` yet the color is not the very-low color
(the later high branch overwrote it). (ii) `v = 5`, `ll = 10`, `l = 3`:
`v ≤ veryLow` yet the color is not the very-low color (the very-low check
is nested inside `v ≤ low`, which fails). (iii) `v = 5`, `h = 10`,
`hh = 3`: `v ≥ veryHigh` yet the color is not the very-high color (the
very-high check is nested inside `v ≥ high`, which fails). -/
theorem c3_counterexample :
    ((5:ℚ) ≤ 10
      ∧ getColor 5 (some ⟨some 10, some 20, some 0, none⟩) ≠ colors_ll)
    ∧ ((5:ℚ) ≤ 10
      ∧ getColor 5 (some ⟨some 10, some 3, none, none⟩) ≠ colors_ll)
    ∧ ((3:ℚ) ≤ 5
      ∧ getColor 5 (some ⟨none, none, some 10, some 3⟩) ≠ colors_hh) := by
  decide

/-- C3 (amended): the band-to-color statements hold with the
qualifications the branch nesting and evaluation order force: the
very-low case also requires `v ≤ low` (the `veryLow` check is nested
inside the `low` check) and that any firing high-side check reaches
`veryHigh` (the high branch runs last and low/high share one hex while
veryLow/veryHigh share another); the low case requires `v > veryLow` and
`¬(v ≥ veryHigh)`; dually the very-high case also requires `v ≥ high`;
the high case (`v ≥ high`, not `v ≥ veryHigh`) holds as claimed. -/
theorem c3_amended (v : ℚ) (t : Thresholds) :
    (jsLe v t.l = true → jsLe v t.ll = false → jsGe v t.hh = false →
      getColor v (some t) = colors_l)
    ∧ (jsLe v t.l = true → jsLe v t.ll = true →
      (jsGe v t.h = true → jsGe v t.hh = true) →
      getColor v (some t) = colors_ll)
    ∧ (jsGe v t.h = true → jsGe v t.hh = false →
      getColor v (some t) = colors_h)
    ∧ (jsGe v t.hh = true → jsGe v t.h = true →
      getColor v (some t) = colors_hh) := by
  refine ⟨?_, ?_, ?_, ?_⟩
  · intro h1 h2 h3
    cases hH : jsGe v t.h <;>
      simp [getColor, h1, h2, h3, hH, colors_h, colors_l]
  · intro h1 h2 h3
    cases hH : jsGe v t.h
    · simp [getColor, h1, h2, hH]
    · simp [getColor, h1, h2, hH, h3 hH, colors_hh, colors_ll]
  · intro h1 h2
    simp [getColor, h1, h2]
  · intro h1 h2
    simp [getColor, h1, h2]

/-- C3 (witness): the amended statements at concrete inputs. -/
theorem c3_amended_witness :
    getColor 5 (some ⟨some 1, some 10, none, none⟩) = colors_l
    ∧ getColor (-2) (some ⟨some 1, some 10, none, none⟩) = colors_ll
    ∧ getColor 8 (some ⟨none, none, some 7, some 9⟩) = colors_h
    ∧ getColor 11 (some ⟨none, none, some 7, some 9⟩) = colors_hh :=
  ⟨(c3_amended 5 ⟨some 1, some 10, none, none⟩).1 (by decide) (by decide) (by decide),
   (c3_amended (-2) ⟨some 1, some 10, none, none⟩).2.1 (by decide) (by decide) (by decide),
   (c3_amended 8 ⟨none, none, some 7, some 9⟩).2.2.1 (by decide) (by decide),
   (c3_amended 11 ⟨none, none, some 7, some 9⟩).2.2.2 (by decide) (by decide)⟩

/-- C4: whenever both the low-side comparison `v <= t.l` and the
high-side comparison `v >= t.h` hold (inverted/overlapping thresholds),
the resolved color is the high-side result, because the high branch is
evaluated after the low branch and overwrites it. -/
theorem c4_high_branch_overwrites (v : ℚ) (t : Thresholds)
    (_hL : jsLe v t.l = true) (hH : jsGe v t.h = true) :
    getColor v (some t) = highSideResult v t := by
  simp [getColor, highSideResult, hH]

/-- C4 (witness): `v = 5` with `l = 20`, `h = 0`, `hh = 3` satisfies both
comparisons and resolves to the high-side (very-high) color. -/
theorem c4_high_branch_overwrites_witness :
    getColor 5 (some ⟨none, some 20, some 0, some 3⟩)
      = highSideResult 5 ⟨none, some 20, some 0, some 3⟩
    ∧ highSideResult 5 ⟨none, some 20, some 0, some 3⟩ = colors_hh :=
  ⟨c4_high_branch_overwrites 5 ⟨none, some 20, some 0, some 3⟩ (by decide) (by decide),
   by decide⟩

/-- C5: `update(newData)` re-invokes only the data-dependent renderers —
the bars (in the mode fixed at initial render) and the reference markers
get the update formulas — while backgrounds, threshold lines, x-axis
labels, the y axis, borders and the baseline marker are untouched, and
the error-bar elements are also untouched because `updateErrorBars` is a
no-op. -/
theorem c5_update_frame (c : Config) (sb : Bool) (nd : List DataPoint) (s : Scene) :
    (chartUpdate c sb nd s).backgrounds = s.backgrounds
    ∧ (chartUpdate c sb nd s).thresholdLines = s.thresholdLines
    ∧ (chartUpdate c sb nd s).xLabels = s.xLabels
    ∧ (chartUpdate c sb nd s).yAxisDrawn = s.yAxisDrawn
    ∧ (chartUpdate c sb nd s).borders = s.borders
    ∧ (chartUpdate c sb nd s).baselineMarker = s.baselineMarker
    ∧ (chartUpdate c sb nd s).errorSegs = s.errorSegs
    ∧ (chartUpdate c sb nd s).bars
        = (if sb then updBarsBase c nd s.bars else updBarsAxis c nd s.bars)
    ∧ (chartUpdate c sb nd s).references = updReferences c nd s.references :=
  ⟨rfl, rfl, rfl, rfl, rfl, rfl, rfl, rfl, rfl⟩

/-- C6: in zero-origin mode, with the y scale `link` builds (linear from
`[min, max]` to `[marginTop, height - marginBottom]`), every bar's final
height is `yScale(value) - marginTop`, i.e. `(value - min)/(max - min)` of
the plot height; the bar's bottom (`y + height`) sits on the bottom
margin; and a point with `value = min` has height 0. -/
theorem c6_axis_bar_geometry (c : Config) (mn mx : ℚ)
    (hys : c.yScale
      = fun v => d3LinearScale mn mx c.marginTop (c.height - c.marginBottom) v)
    (i : ℕ) (d : DataPoint) :
    (axisBarR c i d).h = c.yScale d.value - c.marginTop
    ∧ (axisBarR c i d).y + (axisBarR c i d).h = c.height - c.marginBottom
    ∧ (axisBarR c i d).h
        = (d.value - mn) / (mx - mn) * (c.height - c.marginBottom - c.marginTop)
    ∧ (d.value = mn → (axisBarR c i d).h = 0) := by
  refine ⟨rfl, ?_, ?_, ?_⟩
  · show c.height - c.marginBottom + c.marginTop - c.yScale d.value
      + (c.yScale d.value - c.marginTop) = c.height - c.marginBottom
    ring
  · show c.yScale d.value - c.marginTop = _
    rw [hys]
    unfold d3LinearScale
    ring
  · intro h
    show c.yScale d.value - c.marginTop = 0
    rw [hys, h]
    unfold d3LinearScale
    ring

/-- C6 (witness): the spec's sample geometry (`min 0`, `max 10`, plot
height 68): a bar of value 7 has height `7/10 * 68 = 238/5`, and a bar of
value 0 (`= min`) has height 0. -/
theorem c6_axis_bar_geometry_witness :
    (axisBarR cfgAxis 0 { name := "Jan", value := 7 }).h = 238/5
    ∧ (axisBarR cfgAxis 0 { name := "Z", value := 0 }).h = 0 := by
  constructor
  · have h := (c6_axis_bar_geometry cfgAxis 0 10 rfl 0
      { name := "Jan", value := 7 }).2.2.1
    rw [h]
    show ((7:ℚ) - 0) / (10 - 0) * (cfgAxis.height - cfgAxis.marginBottom - cfgAxis.marginTop) = 238/5
    norm_num [cfgAxis]
  · exact (c6_axis_bar_geometry cfgAxis 0 10 rfl 0
      { name := "Z", value := 0 }).2.2.2 rfl

/-- C7 (counterexample): `columnWidth` is not monotonically non-increasing
in `numCols` for every width: (i) `numCols` 0 → 1 at width 150 increases
(-150 to 20, the denominator `2*numCols - 1` is negative at 0);
(ii) a negative width increases toward 0 (`-60` to `-20`); (iii) with
y-axis labels shown, a width smaller than the estimated label width
behaves like a negative width (`-25` to `-25/3`). -/
theorem c7_counterexample :
    getColWidth 150 0 100 0 false < getColWidth 150 1 100 0 false
    ∧ getColWidth (-60) 1 100 0 false < getColWidth (-60) 2 100 0 false
    ∧ getColWidth 5 1 100 0 true < getColWidth 5 2 100 0 true := by
  have hc : Nat.max (toString (100:ℤ)).length (toString (0:ℤ)).length = 3 := by decide
  refine ⟨?_, ?_, ?_⟩ <;> norm_num [getColWidth, hc]

/-- C7 (amended): `columnWidth(width, numCols, max, min, showYAxis) ≤ 20`
for all arguments; and it is monotonically non-increasing as `numCols`
increases provided `numCols ≥ 1` and the effective width (the width
itself, or `width - 10*numChars` when y-axis labels are shown) is
nonnegative. -/
theorem c7_amended :
    (∀ (w : ℚ) (n : ℕ) (mx mn : ℤ) (sy : Bool), getColWidth w n mx mn sy ≤ 20)
    ∧ (∀ (w : ℚ) (mx mn : ℤ) (sy : Bool) (n m : ℕ), 1 ≤ n → n ≤ m →
      0 ≤ (if sy then
            w - 10 * ((Nat.max (toString mx).length (toString mn).length : ℕ) : ℚ)
          else w) →
      getColWidth w m mx mn sy ≤ getColWidth w n mx mn sy) := by
  constructor
  · intro w n mx mn sy
    unfold getColWidth
    cases sy <;> simp [cap20_le]
  · intro w mx mn sy n m h1 hnm hw
    have hn1 : (1:ℚ) ≤ (n:ℚ) := by exact_mod_cast h1
    have hmn : ((n:ℚ)) ≤ (m:ℚ) := by exact_mod_cast hnm
    have hd1 : (0:ℚ) < 2 * (n:ℚ) - 1 := by linarith
    have hd2 : 2 * (n:ℚ) - 1 ≤ 2 * (m:ℚ) - 1 := by linarith
    unfold getColWidth
    cases sy
    · simp only [Bool.false_eq_true, if_false] at hw ⊢
      exact cap20_mono (by gcongr)
    · simp only [if_true] at hw ⊢
      exact cap20_mono (by gcongr)

/-- C7 (witness for the amended claim): the cap at concrete arguments and
monotonicity from 2 to 3 columns at width 150. -/
theorem c7_amended_witness :
    getColWidth 150 2 100 0 false ≤ 20
    ∧ getColWidth 150 3 100 0 false ≤ getColWidth 150 2 100 0 false :=
  ⟨c7_amended.1 150 2 100 0 false,
   c7_amended.2 150 100 0 false 2 3 (by decide) (by decide) (by norm_num)⟩

/-- C8 (code bug): `link` passes `config.showYAxis` — a field never
assigned anywhere, hence `undefined` and falsy — to `getColWidth`, so the
label-width subtraction never happens even when the chart is rendered
with `showYAxis` true. At width 50, two columns, `max = 100`, `min = 0`:
the code lays out with column width `50/3`, while the claimed computation
(`getColWidth` with the flag actually on) gives `(50 - 10*3)/3 = 20/3`. -/
theorem c8_link_colwidth_ignores_yaxis :
    linkColWidth 50 2 100 0 = 50/3
    ∧ getColWidth 50 2 100 0 true = 20/3
    ∧ (50:ℚ)/3 ≠ 20/3 := by
  have hc : Nat.max (toString (100:ℤ)).length (toString (0:ℤ)).length = 3 := by decide
  refine ⟨?_, ?_, ?_⟩ <;> norm_num [linkColWidth, getColWidth, hc]

/-- C9: in baseline mode a point whose value is exactly 0 gets bar height
0 on render and on update, regardless of the baseline, while every
nonzero value gets the general height
`|yScale(baseline) - yScale(value)|` (the source guards the height with
the value's truthiness: `d.value ? |…| : 0`). -/
theorem c9_zero_value_zero_height (c : Config) (i : ℕ) (d : DataPoint) (x0 : ℚ) :
    (d.value = 0 → (baseBarR c i d).h = 0 ∧ (baseBarU c d x0).h = 0)
    ∧ (d.value ≠ 0 →
      (baseBarR c i d).h = |c.yScale (jsNum c.baseline) - c.yScale d.value|
      ∧ (baseBarU c d x0).h = |c.yScale (jsNum c.baseline) - c.yScale d.value|) := by
  constructor
  · intro h
    constructor <;> simp [baseBarR, baseBarU, h]
  · intro h
    constructor <;> simp [baseBarR, baseBarU, h]

/-- C9 (witness): with baseline 5 on the sample scale, a zero-valued
point renders with height 0 (though `|yScale 5 - yScale 0| = 34 ≠ 0`),
and a point of value 3 gets the general height. -/
theorem c9_zero_value_zero_height_witness :
    (baseBarR cfgBase 0 { name := "Z", value := 0 }).h = 0
    ∧ (baseBarR cfgBase 0 { name := "T", value := 3 }).h
        = |cfgBase.yScale (jsNum cfgBase.baseline) - cfgBase.yScale 3|
    ∧ |cfgBase.yScale (jsNum cfgBase.baseline) - cfgBase.yScale 0| ≠ 0 :=
  ⟨((c9_zero_value_zero_height cfgBase 0 { name := "Z", value := 0 } 0).1 rfl).1,
   ((c9_zero_value_zero_height cfgBase 0 { name := "T", value := 3 } 0).2
      (by norm_num)).1,
   by norm_num [cfgBase, jsNum, d3LinearScale]⟩

/-- C10: a supplied baseline attribute of exactly the string `'0'` makes
the resolver select baseline mode (`showBaseline = true`, since a
non-empty string is truthy, so `render` takes the baseline renderers)
while the resolved numeric `config.baseline` collapses to null
(`parseFloat('0') || null` is null because 0 is falsy), not 0. -/
theorem c10_baseline_string_zero :
    resolveBaseline (some "0") = (true, none)
    ∧ ((renderScene cfgEmpty false false (resolveBaseline (some "0")).1).baselineMarker).isSome
      = true := by
  constructor
  · decide
  · rfl

end ChartColumn
